import Mathlib

/-
  Shallow embedding of the SuperCSV repository (src/supercsv.py,
  src/modules/datatype.py, src/modules/parser.py, src/modules/errors.py).

  Python values flowing through the code are modelled by the inductive
  PyVal below; Python floats are modelled as exact rationals (the claims
  settled here do not depend on IEEE-754 rounding).  Python exceptions are
  modelled by the PErr inductive, one constructor per exception class the
  code can raise, and fallible code returns Except PErr.
-/

namespace SCSV

/-- Model of the exception classes raised by the code: the three classes of
src/modules/errors.py plus the builtin exceptions IndexError, ValueError and
TypeError that the code can raise. -/
inductive PErr where
  | parseError : String → PErr
  | annotationCoverageError : String → PErr
  | updateError : String → PErr
  | indexError : String → PErr
  | valueError : String → PErr
  | typeError : String → PErr
  deriving DecidableEq, Repr

/-- Model of the Python runtime values handled by the repository:
str, int, float, bool, None, list, and dict (string-keyed, as produced by
csv.DictReader and accepted by json.dumps).  datetime objects are modelled
by their POSIX timestamp. -/
inductive PyVal where
  | vNone : PyVal
  | vBool : Bool → PyVal
  | vInt : Int → PyVal
  | vFloat : Rat → PyVal
  | vStr : String → PyVal
  | vDateTime : Rat → PyVal
  | vList : List PyVal → PyVal
  | vDict : List (String × PyVal) → PyVal
  deriving Repr

/-- Structural boolean equality on PyVal (Lean-side; used only to get a
DecidableEq instance for stating and deciding concrete equalities). -/
def PyVal.beq : PyVal → PyVal → Bool
  | .vNone, .vNone => true
  | .vBool a, .vBool b => a == b
  | .vInt a, .vInt b => a == b
  | .vFloat a, .vFloat b => a == b
  | .vStr a, .vStr b => a == b
  | .vDateTime a, .vDateTime b => a == b
  | .vList [], .vList [] => true
  | .vList (a :: as), .vList (b :: bs) =>
      PyVal.beq a b && PyVal.beq (.vList as) (.vList bs)
  | .vDict [], .vDict [] => true
  | .vDict ((ka, va) :: as), .vDict ((kb, vb) :: bs) =>
      ka == kb && PyVal.beq va vb && PyVal.beq (.vDict as) (.vDict bs)
  | _, _ => false

theorem PyVal.beq_iff : ∀ a b : PyVal, PyVal.beq a b = true ↔ a = b
  | .vNone, .vNone => by simp [PyVal.beq]
  | .vBool a, .vBool b => by simp [PyVal.beq]
  | .vInt a, .vInt b => by simp [PyVal.beq]
  | .vFloat a, .vFloat b => by simp [PyVal.beq]
  | .vStr a, .vStr b => by simp [PyVal.beq]
  | .vDateTime a, .vDateTime b => by simp [PyVal.beq]
  | .vList [], .vList [] => by simp [PyVal.beq]
  | .vList [], .vList (_ :: _) => by simp [PyVal.beq]
  | .vList (_ :: _), .vList [] => by simp [PyVal.beq]
  | .vList (a :: as), .vList (b :: bs) => by
      simp [PyVal.beq, PyVal.beq_iff a b, PyVal.beq_iff (.vList as) (.vList bs)]
  | .vDict [], .vDict [] => by simp [PyVal.beq]
  | .vDict [], .vDict (_ :: _) => by simp [PyVal.beq]
  | .vDict (_ :: _), .vDict [] => by simp [PyVal.beq]
  | .vDict ((ka, va) :: as), .vDict ((kb, vb) :: bs) => by
      simp [PyVal.beq, PyVal.beq_iff va vb, PyVal.beq_iff (.vDict as) (.vDict bs),
        and_assoc]
  | .vNone, .vBool _ => by simp [PyVal.beq]
  | .vNone, .vInt _ => by simp [PyVal.beq]
  | .vNone, .vFloat _ => by simp [PyVal.beq]
  | .vNone, .vStr _ => by simp [PyVal.beq]
  | .vNone, .vDateTime _ => by simp [PyVal.beq]
  | .vNone, .vList _ => by simp [PyVal.beq]
  | .vNone, .vDict _ => by simp [PyVal.beq]
  | .vBool _, .vNone => by simp [PyVal.beq]
  | .vBool _, .vInt _ => by simp [PyVal.beq]
  | .vBool _, .vFloat _ => by simp [PyVal.beq]
  | .vBool _, .vStr _ => by simp [PyVal.beq]
  | .vBool _, .vDateTime _ => by simp [PyVal.beq]
  | .vBool _, .vList _ => by simp [PyVal.beq]
  | .vBool _, .vDict _ => by simp [PyVal.beq]
  | .vInt _, .vNone => by simp [PyVal.beq]
  | .vInt _, .vBool _ => by simp [PyVal.beq]
  | .vInt _, .vFloat _ => by simp [PyVal.beq]
  | .vInt _, .vStr _ => by simp [PyVal.beq]
  | .vInt _, .vDateTime _ => by simp [PyVal.beq]
  | .vInt _, .vList _ => by simp [PyVal.beq]
  | .vInt _, .vDict _ => by simp [PyVal.beq]
  | .vFloat _, .vNone => by simp [PyVal.beq]
  | .vFloat _, .vBool _ => by simp [PyVal.beq]
  | .vFloat _, .vInt _ => by simp [PyVal.beq]
  | .vFloat _, .vStr _ => by simp [PyVal.beq]
  | .vFloat _, .vDateTime _ => by simp [PyVal.beq]
  | .vFloat _, .vList _ => by simp [PyVal.beq]
  | .vFloat _, .vDict _ => by simp [PyVal.beq]
  | .vStr _, .vNone => by simp [PyVal.beq]
  | .vStr _, .vBool _ => by simp [PyVal.beq]
  | .vStr _, .vInt _ => by simp [PyVal.beq]
  | .vStr _, .vFloat _ => by simp [PyVal.beq]
  | .vStr _, .vDateTime _ => by simp [PyVal.beq]
  | .vStr _, .vList _ => by simp [PyVal.beq]
  | .vStr _, .vDict _ => by simp [PyVal.beq]
  | .vDateTime _, .vNone => by simp [PyVal.beq]
  | .vDateTime _, .vBool _ => by simp [PyVal.beq]
  | .vDateTime _, .vInt _ => by simp [PyVal.beq]
  | .vDateTime _, .vFloat _ => by simp [PyVal.beq]
  | .vDateTime _, .vStr _ => by simp [PyVal.beq]
  | .vDateTime _, .vList _ => by simp [PyVal.beq]
  | .vDateTime _, .vDict _ => by simp [PyVal.beq]
  | .vList _, .vNone => by simp [PyVal.beq]
  | .vList _, .vBool _ => by simp [PyVal.beq]
  | .vList _, .vInt _ => by simp [PyVal.beq]
  | .vList _, .vFloat _ => by simp [PyVal.beq]
  | .vList _, .vStr _ => by simp [PyVal.beq]
  | .vList _, .vDateTime _ => by simp [PyVal.beq]
  | .vList _, .vDict _ => by simp [PyVal.beq]
  | .vDict _, .vNone => by simp [PyVal.beq]
  | .vDict _, .vBool _ => by simp [PyVal.beq]
  | .vDict _, .vInt _ => by simp [PyVal.beq]
  | .vDict _, .vFloat _ => by simp [PyVal.beq]
  | .vDict _, .vStr _ => by simp [PyVal.beq]
  | .vDict _, .vDateTime _ => by simp [PyVal.beq]
  | .vDict _, .vList _ => by simp [PyVal.beq]

instance : DecidableEq PyVal :=
  fun a b => decidable_of_iff (PyVal.beq a b = true) (PyVal.beq_iff a b)

/-! ## Python string primitives

The Python string operations the repository uses (strip, lower, split,
split with maxsplit 1, join, int(), float(), str()) are modelled below at
the character-list level so that every definition is executable and
kernel-reducible. -/

/-- The whitespace characters removed by Python str.strip with no
argument. -/
def pyIsSpace (c : Char) : Bool :=
  c = ' ' || c = '\t' || c = '\n' || c = '\r' || c = '\x0b' || c = '\x0c'

/-- Python str.strip with no argument. -/
def pyStrip (s : String) : String :=
  String.mk (((s.data.dropWhile pyIsSpace).reverse.dropWhile pyIsSpace).reverse)

/-- Python str.lower (ASCII case folding; the repository only feeds it
type-alias text). -/
def pyLower (s : String) : String :=
  String.mk (s.data.map Char.toLower)

/-- Worker for pySplit: leftmost non-overlapping occurrences of sep.  The
fuel argument only bounds recursion; with fuel larger than the input
length and a non-empty separator it is never exhausted. -/
def splitChars (sep : List Char) : Nat → List Char → List Char → List (List Char)
  | 0, acc, rest => [acc ++ rest]
  | _ + 1, acc, [] => [acc]
  | fuel + 1, acc, c :: cs =>
      if sep.isPrefixOf (c :: cs) then
        acc :: splitChars sep fuel [] ((c :: cs).drop sep.length)
      else
        splitChars sep fuel (acc ++ [c]) cs

/-- Python s.split(sep) for a non-empty separator: full split at every
leftmost non-overlapping occurrence. -/
def pySplit (s sep : String) : List String :=
  (splitChars sep.data (s.data.length + 1) [] s.data).map String.mk

/-- Python sep.join(xs). -/
def pyJoin (sep : String) : List String → String
  | [] => ""
  | [x] => x
  | x :: xs => x ++ sep ++ pyJoin sep xs

/-- Python s.split(sep, 1): split at the first occurrence only; none when
the separator does not occur.  Rejoining the tail of the full split with
the separator reconstructs the remainder after the first occurrence. -/
def pySplitOnce (s sep : String) : Option (String × String) :=
  match pySplit s sep with
  | [] => none
  | [_] => none
  | x :: rest => some (x, pyJoin sep rest)

/-- Decimal digit accumulator: some value when every character is a
decimal digit (also on the empty list, where it yields the seed). -/
def decDigitsAux : Nat → List Char → Option Nat
  | n, [] => some n
  | n, c :: cs => if c.isDigit then decDigitsAux (n * 10 + (c.toNat - 48)) cs else none

/-- Shared tail of pyIntOfStr after the sign has been consumed. -/
def intFromDigits (sign : Int) (body : List Char) (orig : String) : Except PErr Int :=
  match body, decDigitsAux 0 body with
  | _ :: _, some n => .ok (sign * n)
  | _, _ => .error (PErr.valueError ("invalid literal for int with base 10: " ++ orig))

/-- Python int(s) on a string: strip whitespace, optional sign, decimal
digits.  (Underscore digit grouping, which Python also accepts, is not
modelled; no claim exercises it.) -/
def pyIntOfStr (s : String) : Except PErr Int :=
  match (pyStrip s).data with
  | '-' :: rest => intFromDigits (-1) rest s
  | '+' :: rest => intFromDigits 1 rest s
  | cs => intFromDigits 1 cs s

/-- Mantissa of a float literal: digits, optionally with one decimal
point; at least one digit overall. -/
def parseUnsignedFloat (cs : List Char) : Option Rat :=
  match splitChars ['.'] (cs.length + 1) [] cs with
  | [ip] =>
      if ip.isEmpty then none else (decDigitsAux 0 ip).map (fun n => (n : Rat))
  | [ip, fp] =>
      if ip.isEmpty && fp.isEmpty then none
      else
        match decDigitsAux 0 ip, decDigitsAux 0 fp with
        | some i, some f => some ((i : Rat) + (f : Rat) / ((10 : Rat) ^ fp.length))
        | _, _ => none
  | _ => none

/-- Signed decimal exponent of a float literal. -/
def parseSignedExp (cs : List Char) : Option Int :=
  match cs with
  | '-' :: rest =>
      if rest.isEmpty then none else (decDigitsAux 0 rest).map (fun n => -(n : Int))
  | '+' :: rest =>
      if rest.isEmpty then none else (decDigitsAux 0 rest).map (fun n => (n : Int))
  | _ =>
      if cs.isEmpty then none else (decDigitsAux 0 cs).map (fun n => (n : Int))

/-- Float literal body after the sign: mantissa with optional exponent. -/
def floatFromBody (body : List Char) : Option Rat :=
  match splitChars ['e'] (body.length + 1) [] body with
  | [m] => parseUnsignedFloat m
  | [m, e] => do
      let mv ← parseUnsignedFloat m
      let ev ← parseSignedExp e
      some (mv * (10 : Rat) ^ ev)
  | _ => none

/-- Python float(s) on a string, with the float value modelled as an exact
rational.  (The special texts inf and nan are not modelled; no claim
exercises them.) -/
def pyFloatOfStr (s : String) : Except PErr Rat :=
  let t := pyLower (pyStrip s)
  let res :=
    match t.data with
    | '-' :: rest => (floatFromBody rest).map (fun q => -q)
    | '+' :: rest => floatFromBody rest
    | cs => floatFromBody cs
  match res with
  | some q => .ok q
  | none => .error (PErr.valueError ("could not convert string to float: " ++ s))

/-- Fractional decimal digits of num/den (num < den), up to the fuel
bound, stopping when the expansion terminates. -/
def fracDigitsAux : Nat → Nat → Nat → List Char
  | 0, _, _ => []
  | fuel + 1, num, den =>
      if num = 0 then []
      else Char.ofNat (48 + num * 10 / den) :: fracDigitsAux fuel (num * 10 % den) den

/-- Python str() of a float, on the exact-rational model: decimal
rendering with the fractional part cut at 17 digits and at least one
fractional digit (str(2.0) is 2.0).  Scientific notation for very large or
small magnitudes is not modelled; no claim exercises it. -/
def floatRepr (q : Rat) : String :=
  let sign := if q < 0 then "-" else ""
  let a := |q|
  let ip : Nat := (⌊a⌋).toNat
  let fr : Rat := a - (ip : Rat)
  let frac := fracDigitsAux 17 fr.num.toNat fr.den
  sign ++ toString ip ++ "." ++ (if frac.isEmpty then "0" else String.mk frac)

/-- repr() of a PyVal, with recursion bounded by the fuel (pyStr instantiates
the fuel with sizeOf, which bounds the nesting depth).  String repr is
modelled as plain single-quoting without escape processing; cells never
hold containers in practice, so only the scalar cases are exercised by the
claims. -/
def pyReprFuel : Nat → PyVal → String
  | 0, _ => ""
  | fuel + 1, v =>
      match v with
      | .vNone => "None"
      | .vBool true => "True"
      | .vBool false => "False"
      | .vInt n => toString n
      | .vFloat q => floatRepr q
      | .vDateTime ts => "datetime(" ++ floatRepr ts ++ ")"
      | .vStr s => String.mk (Char.ofNat 39 :: (s.data ++ [Char.ofNat 39]))
      | .vList xs => "[" ++ pyJoin ", " (xs.map (pyReprFuel fuel)) ++ "]"
      | .vDict kvs =>
          "\x7b" ++
            pyJoin ", " (kvs.map (fun kv =>
              pyReprFuel fuel (.vStr kv.1) ++ ": " ++ pyReprFuel fuel kv.2)) ++
          "\x7d"

/-- Executable size of a PyVal, bounding its nesting depth; used as the
fuel for pyStr. -/
def PyVal.fsize : PyVal → Nat
  | .vList [] => 1
  | .vList (x :: xs) => x.fsize + (PyVal.vList xs).fsize + 1
  | .vDict [] => 1
  | .vDict ((_, v) :: kvs) => v.fsize + (PyVal.vDict kvs).fsize + 1
  | _ => 1

/-- Python str() of a value: identity on strings, repr-like rendering
otherwise (scalar cases inlined so that they compute by plain reduction;
the container cases delegate to the fuelled repr). -/
def pyStr : PyVal → String
  | .vStr s => s
  | .vNone => "None"
  | .vBool true => "True"
  | .vBool false => "False"
  | .vInt n => toString n
  | .vFloat q => floatRepr q
  | .vDateTime ts => "datetime(" ++ floatRepr ts ++ ")"
  | v => pyReprFuel v.fsize v

/-- Python truthiness, as used by Boolean.encode. -/
def pyTruthy : PyVal → Bool
  | .vNone => false
  | .vBool b => b
  | .vInt n => n != 0
  | .vFloat q => q != 0
  | .vStr s => s != ""
  | .vDateTime _ => true
  | .vList xs => !xs.isEmpty
  | .vDict kvs => !kvs.isEmpty

/-- Numeric view of a value for Python ==, where bool, int and float
compare by numeric value. -/
def pyNumVal : PyVal → Option Rat
  | .vBool b => some (if b then 1 else 0)
  | .vInt n => some (n : Rat)
  | .vFloat q => some q
  | _ => none

/-- Python ==, as used by Boolean.decode (data == "1"): numeric kinds
compare by value, strings by content, distinct kinds are unequal.
Container equality is approximated by structural equality (Python compares
elementwise); the code only ever compares cell values against "1". -/
def pyEqB (a b : PyVal) : Bool :=
  match pyNumVal a, pyNumVal b with
  | some x, some y => x == y
  | _, _ =>
      match a, b with
      | .vStr x, .vStr y => x == y
      | .vNone, .vNone => true
      | x, y => PyVal.beq x y

/-! ## Model of the stdlib json module (used by the Object variant)

json.dumps and json.loads with default options, modelled on PyVal.
Non-ASCII escaping (ensure_ascii) and \u escapes are not modelled; no
claim exercises them. -/

/-- JSON string quoting with the standard short escapes. -/
def jsonEscape (s : String) : String :=
  "\"" ++ String.mk (s.data.flatMap (fun c =>
    if c = '"' then ['\\', '"']
    else if c = '\\' then ['\\', '\\']
    else if c = '\n' then ['\\', 'n']
    else if c = '\t' then ['\\', 't']
    else if c = '\r' then ['\\', 'r']
    else [c])) ++ "\""

/-- json.dumps with default separators, with recursion bounded by fuel
(jsonDumps instantiates the fuel with fsize, which bounds the depth).
A datetime value is not JSON serializable: TypeError, as in Python. -/
def jsonDumpsFuel : Nat → PyVal → Except PErr String
  | 0, _ => .error (.valueError "Circular reference detected")
  | fuel + 1, v =>
      match v with
      | .vNone => .ok "null"
      | .vBool true => .ok "true"
      | .vBool false => .ok "false"
      | .vInt n => .ok (toString n)
      | .vFloat q => .ok (floatRepr q)
      | .vDateTime _ => .error (.typeError "Object of type datetime is not JSON serializable")
      | .vStr s => .ok (jsonEscape s)
      | .vList xs => do
          let parts ← xs.mapM (jsonDumpsFuel fuel)
          .ok ("[" ++ pyJoin ", " parts ++ "]")
      | .vDict kvs => do
          let parts ← kvs.mapM (fun kv => do
            let vs ← jsonDumpsFuel fuel kv.2
            pure (jsonEscape kv.1 ++ ": " ++ vs))
          .ok ("\x7b" ++ pyJoin ", " parts ++ "\x7d")

/-- json.dumps. -/
def jsonDumps (v : PyVal) : Except PErr String :=
  jsonDumpsFuel (v.fsize + 1) v

/-- JSON insignificant whitespace. -/
def jsonWs (cs : List Char) : List Char :=
  cs.dropWhile (fun c => c = ' ' || c = '\t' || c = '\n' || c = '\r')

/-- JSON string body after the opening quote (short escapes only). -/
def parseJString : Nat → List Char → List Char → Option (String × List Char)
  | 0, _, _ => none
  | _ + 1, _, [] => none
  | fuel + 1, acc, c :: cs =>
      if c = '"' then some (String.mk acc.reverse, cs)
      else if c = '\\' then
        match cs with
        | '"' :: rest => parseJString fuel ('"' :: acc) rest
        | '\\' :: rest => parseJString fuel ('\\' :: acc) rest
        | '/' :: rest => parseJString fuel ('/' :: acc) rest
        | 'n' :: rest => parseJString fuel ('\n' :: acc) rest
        | 't' :: rest => parseJString fuel ('\t' :: acc) rest
        | 'r' :: rest => parseJString fuel ('\r' :: acc) rest
        | _ => none
      else parseJString fuel (c :: acc) cs

/-- Longest prefix made of characters that can appear in a JSON number. -/
def takeNumChars (cs : List Char) : List Char × List Char :=
  (cs.takeWhile (fun c => c.isDigit || c = '-' || c = '+' || c = '.' || c = 'e' || c = 'E'),
   cs.dropWhile (fun c => c.isDigit || c = '-' || c = '+' || c = '.' || c = 'e' || c = 'E'))

/-- A JSON number token: int when it has no fraction or exponent, float
otherwise (as the Python json module distinguishes them). -/
def parseJNum (tok : List Char) : Option PyVal :=
  if tok.any (fun c => c = '.' || c = 'e' || c = 'E') then
    match pyFloatOfStr (String.mk tok) with
    | .ok q => some (.vFloat q)
    | .error _ => none
  else
    match pyIntOfStr (String.mk tok) with
    | .ok n => some (.vInt n)
    | .error _ => none

mutual

/-- Recursive-descent JSON value parser (fuel-bounded). -/
def parseJVal : Nat → List Char → Option (PyVal × List Char)
  | 0, _ => none
  | fuel + 1, cs =>
      match jsonWs cs with
      | '"' :: rest =>
          (parseJString (rest.length + 1) [] rest).map (fun p => (.vStr p.1, p.2))
      | 't' :: 'r' :: 'u' :: 'e' :: rest => some (.vBool true, rest)
      | 'f' :: 'a' :: 'l' :: 's' :: 'e' :: rest => some (.vBool false, rest)
      | 'n' :: 'u' :: 'l' :: 'l' :: rest => some (.vNone, rest)
      | '[' :: rest =>
          (match jsonWs rest with
           | ']' :: rest2 => some (.vList [], rest2)
           | _ => (parseJItems fuel rest).map (fun p => (.vList p.1, p.2)))
      | c :: rest =>
          if c = Char.ofNat 123 then
            match jsonWs rest with
            | c2 :: rest2 =>
                if c2 = Char.ofNat 125 then some (.vDict [], rest2)
                else (parseJMembers fuel rest).map (fun p => (.vDict p.1, p.2))
            | [] => none
          else
            match takeNumChars (c :: rest) with
            | ([], _) => none
            | (tok, after) => (parseJNum tok).map (fun v => (v, after))
      | [] => none

/-- One or more comma-separated array elements, up to the closing bracket. -/
def parseJItems : Nat → List Char → Option (List PyVal × List Char)
  | 0, _ => none
  | fuel + 1, cs => do
      let (v, rest) ← parseJVal fuel cs
      match jsonWs rest with
      | ',' :: rest2 => do
          let (vs, rest3) ← parseJItems fuel rest2
          some (v :: vs, rest3)
      | ']' :: rest2 => some ([v], rest2)
      | _ => none

/-- One or more comma-separated object members, up to the closing brace. -/
def parseJMembers : Nat → List Char → Option (List (String × PyVal) × List Char)
  | 0, _ => none
  | fuel + 1, cs =>
      match jsonWs cs with
      | '"' :: rest => do
          let (k, rest2) ← parseJString (rest.length + 1) [] rest
          match jsonWs rest2 with
          | ':' :: rest3 => do
              let (v, rest4) ← parseJVal fuel rest3
              match jsonWs rest4 with
              | ',' :: rest5 => do
                  let (kvs, rest6) ← parseJMembers fuel rest5
                  some ((k, v) :: kvs, rest6)
              | c :: rest5 =>
                  if c = Char.ofNat 125 then some ([(k, v)], rest5) else none
              | [] => none
          | _ => none
      | _ => none

end

/-- json.loads; a malformed text is a ValueError (json.JSONDecodeError
subclasses ValueError in Python). -/
def jsonLoads (s : String) : Except PErr PyVal :=
  match parseJVal (2 * s.data.length + 8) s.data with
  | some (v, rest) =>
      if (jsonWs rest).isEmpty then .ok v else .error (.valueError "Extra data")
  | none => .error (.valueError "Expecting value")

/-! ## src/modules/datatype.py: the type variants

Each Python class becomes a constructor of HighType together with a pair
of functions mirroring its encode and decode methods.  The builtin
conversions int(), float(), str() and bool() are modelled by pyIntFn,
pyFloatFn, pyStr and pyTruthy. -/

/-- The closed set of type variants defined in src/modules/datatype.py. -/
inductive HighType where
  | integer : HighType
  | float : HighType
  | string : HighType
  | boolean : HighType
  | array : HighType
  | dateTime : HighType
  | object : HighType
  deriving DecidableEq, Repr

/-- Truncation of a rational toward zero, as Python int() on a float. -/
def ratTrunc (q : Rat) : Int :=
  if q < 0 then -(⌊-q⌋) else ⌊q⌋

/-- Python int() on a value: identity on int, 0/1 on bool, truncation on
float, decimal parse on str; TypeError otherwise. -/
def pyIntFn : PyVal → Except PErr Int
  | .vInt n => .ok n
  | .vBool b => .ok (if b then 1 else 0)
  | .vFloat q => .ok (ratTrunc q)
  | .vStr s => pyIntOfStr s
  | _ => .error (.typeError "int() argument must be a string or a number")

/-- Python float() on a value. -/
def pyFloatFn : PyVal → Except PErr Rat
  | .vFloat q => .ok q
  | .vInt n => .ok (n : Rat)
  | .vBool b => .ok (if b then 1 else 0)
  | .vStr s => pyFloatOfStr s
  | _ => .error (.typeError "float() argument must be a string or a number")

/-- Integer.encode: int(data). -/
def Integer.encode (data : PyVal) : Except PErr PyVal :=
  (pyIntFn data).map .vInt

/-- Integer.decode: int(data). -/
def Integer.decode (data : PyVal) : Except PErr PyVal :=
  (pyIntFn data).map .vInt

/-- Float.encode: float(data). -/
def Float.encode (data : PyVal) : Except PErr PyVal :=
  (pyFloatFn data).map .vFloat

/-- Float.decode: float(data). -/
def Float.decode (data : PyVal) : Except PErr PyVal :=
  (pyFloatFn data).map .vFloat

/-- String.encode: str(data); total. -/
def String.encode (data : PyVal) : Except PErr PyVal :=
  .ok (.vStr (pyStr data))

/-- String.decode: str(data); total. -/
def String.decode (data : PyVal) : Except PErr PyVal :=
  .ok (.vStr (pyStr data))

/-- Boolean.encode: the string "1" when data is truthy, else "0". -/
def Boolean.encode (data : PyVal) : Except PErr PyVal :=
  .ok (.vStr (if pyTruthy data then "1" else "0"))

/-- Boolean.decode: the Python comparison data == "1". -/
def Boolean.decode (data : PyVal) : Except PErr PyVal :=
  .ok (.vBool (pyEqB data (.vStr "1")))

/-- The record separator of the Array variant (_items_sep, the NUL byte). -/
def itemsSep : String := "\x00"

/-- One element of Array.encode: the tag from _base_types_translation,
the "::" separator and str(item); a value whose type is outside
bool, str, int, float is a ValueError. -/
def arrayEncodeItem : PyVal → Except PErr String
  | .vBool b => .ok ("B::" ++ (if b then "True" else "False"))
  | .vStr s => .ok ("S::" ++ s)
  | .vInt n => .ok ("I::" ++ toString n)
  | .vFloat q => .ok ("F::" ++ floatRepr q)
  | v => .error (.valueError ("Cannot encode item: (" ++ pyStr v ++ "). Data type not supported."))

/-- The loop of Array.encode: every element is rendered and followed by
the record separator; the first unsupported element aborts the chain. -/
def arrayEncodeAux : List PyVal → Except PErr String
  | [] => .ok ""
  | item :: rest => do
      let s ← arrayEncodeItem item
      let r ← arrayEncodeAux rest
      .ok (s ++ itemsSep ++ r)

/-- Array.encode.  (Python would iterate any iterable; the code only ever
receives lists, and a non-list is modelled as a TypeError.) -/
def Array.encode : PyVal → Except PErr PyVal
  | .vList xs => (arrayEncodeAux xs).map .vStr
  | _ => .error (.typeError "Array.encode argument is not iterable")

/-- One record of Array.decode: split at the first "::" (a record without
it is a tuple-unpacking ValueError), look the tag up in
_base_types_translation (unknown tag is a ValueError), then apply the
builtin conversion of the matched base type to the value text. -/
def arrayDecodeItem (item : String) : Except PErr PyVal :=
  match pySplitOnce item "::" with
  | none => .error (.valueError "not enough values to unpack (expected 2, got 1)")
  | some (tag, value) =>
      if tag = "B" then .ok (.vBool (value != ""))
      else if tag = "S" then .ok (.vStr value)
      else if tag = "I" then (pyIntOfStr value).map .vInt
      else if tag = "F" then (pyFloatOfStr value).map .vFloat
      else .error (.valueError ("Cannot decode item: <" ++ item ++ "> invalid type: " ++ tag))

/-- The loop of Array.decode: empty records (such as the one after the
trailing separator) are skipped. -/
def arrayDecodeAux : List String → Except PErr (List PyVal)
  | [] => .ok []
  | item :: rest =>
      if item = "" then arrayDecodeAux rest
      else do
        let v ← arrayDecodeItem item
        let r ← arrayDecodeAux rest
        .ok (v :: r)

/-- Array.decode: split the stored text on the record separator.  (A
non-string input would be an AttributeError in Python; modelled as a
TypeError.) -/
def Array.decode : PyVal → Except PErr PyVal
  | .vStr s => (arrayDecodeAux (pySplit s itemsSep)).map .vList
  | _ => .error (.typeError "Array.decode argument is not a string")

/-- DateTime.encode: str(data.timestamp()); timestamp() is modelled as
the stored POSIX value of the datetime. -/
def DateTime.encode : PyVal → Except PErr PyVal
  | .vDateTime ts => .ok (.vStr (floatRepr ts))
  | _ => .error (.typeError "DateTime.encode argument is not a datetime")

/-- DateTime.decode: datetime.fromtimestamp(float(data)). -/
def DateTime.decode (data : PyVal) : Except PErr PyVal :=
  (pyFloatFn data).map .vDateTime

/-- Object.encode: json.dumps(data). -/
def Object.encode (data : PyVal) : Except PErr PyVal :=
  (jsonDumps data).map .vStr

/-- Object.decode: json.loads(data); a non-string input is a TypeError. -/
def Object.decode : PyVal → Except PErr PyVal
  | .vStr s => jsonLoads s
  | _ => .error (.typeError "the JSON object must be str, bytes or bytearray")

/-- Dispatch of the encode methods over the variant set. -/
def HighType.encodeV : HighType → PyVal → Except PErr PyVal
  | .integer, v => Integer.encode v
  | .float, v => Float.encode v
  | .string, v => String.encode v
  | .boolean, v => Boolean.encode v
  | .array, v => Array.encode v
  | .dateTime, v => DateTime.encode v
  | .object, v => Object.encode v

/-- Dispatch of the decode methods over the variant set. -/
def HighType.decodeV : HighType → PyVal → Except PErr PyVal
  | .integer, v => Integer.decode v
  | .float, v => Float.decode v
  | .string, v => String.decode v
  | .boolean, v => Boolean.decode v
  | .array, v => Array.decode v
  | .dateTime, v => DateTime.decode v
  | .object, v => Object.decode v

/-! ## Python dict model

Python dicts keep keys in insertion order; re-assigning an existing key
keeps its position.  They are modelled by association lists with a
first-match lookup and an in-place-or-append update. -/

/-- First-match lookup, as Python dict.get / the in operator. -/
def alookup {α : Type} : List (String × α) → String → Option α
  | [], _ => none
  | (k2, v) :: rest, k => if k2 = k then some v else alookup rest k

/-- Insertion-order-preserving update, as Python dict assignment. -/
def aupsert {α : Type} : List (String × α) → String → α → List (String × α)
  | [], k, v => [(k, v)]
  | (k2, v2) :: rest, k, v =>
      if k2 = k then (k2, v) :: rest else (k2, v2) :: aupsert rest k v

/-- Key list in order, as Python dict.keys(). -/
def akeys {α : Type} (m : List (String × α)) : List String :=
  m.map Prod.fst

/-- ANNOTATIONS_TABLE of src/modules/datatype.py, verbatim: note the
misspelled full-word alias of Integer and the absence of any DateTime
alias. -/
def ANNOTATIONS_TABLE : List (String × HighType) :=
  [("interger", .integer),
   ("int", .integer),
   ("i", .integer),
   ("float", .float),
   ("f", .float),
   ("string", .string),
   ("str", .string),
   ("s", .string),
   ("boolean", .boolean),
   ("bool", .boolean),
   ("b", .boolean),
   ("array", .array),
   ("arr", .array),
   ("a", .array),
   ("object", .object),
   ("obj", .object),
   ("o", .object)]

/-! ## src/modules/parser.py -/

/-- type T_Row = dict[str, LowType]: one row, keyed by column name, as an
insertion-ordered association list. -/
abbrev T_Row := List (String × PyVal)

/-- The SCSVObject dataclass.  fields mirrors reader.fieldnames, which is
None when the grid block is empty. -/
structure SCSVObject where
  annotations : List (String × HighType)
  fields : Option (List String)
  enc_rows : List T_Row
  file_path : Option String := none
  raw_header : Option String := none
  deriving DecidableEq, Repr

/-- Model of one record of the stdlib csv reader with the default
dialect: fields split at commas, a blank line giving the empty record.
Quote handling is not modelled; no claim involves quoted fields. -/
def csvRow (line : String) : List String :=
  if line = "" then [] else pySplit line ","

/-- csv.DictReader fieldnames over the grid text: the first record, or
None when the text has no lines (StringIO of the empty string). -/
def dictReaderFieldnames (g : String) : Option (List String) :=
  if g = "" then none
  else
    match pySplit g "\n" with
    | [] => none
    | l :: _ => some (csvRow l)

/-- csv.DictReader row construction: zip the field names with the record
values, missing values filled with the restval None.  Surplus values go
under the restkey None, a non-string key outside the string-keyed row
model; no claim exercises it. -/
def dictReaderRow : List String → List String → T_Row
  | [], _ => []
  | f :: fs, [] => (f, .vNone) :: dictReaderRow fs []
  | f :: fs, v :: vs => (f, .vStr v) :: dictReaderRow fs vs

/-- The data records of csv.DictReader (everything after the field-name
record), blank records skipped, as collected by _dictreader_to_rows. -/
def dictReaderRows (fns : List String) (g : String) : List T_Row :=
  match pySplit g "\n" with
  | [] => []
  | _ :: rest => (rest.filter (fun l => l != "")).map (fun l => dictReaderRow fns (csvRow l))

/-- One iteration of the loop of _parse_header: ok none when the line is
empty and skipped; the parsed (column, variant) pair otherwise.  The
line is split at every colon and unpacked into exactly two parts, so a
line with no colon or more than one colon raises a tuple-unpacking
ValueError; an alias outside ANNOTATIONS_TABLE raises the ParseError
naming the stripped column and the lowercased, stripped alias. -/
def headerLineStep (line : String) : Except PErr (Option (String × HighType)) :=
  if line = "" then .ok none
  else
    match pySplit line ":" with
    | [col, ty] =>
        let column := pyStrip col
        let type_name := pyStrip (pyLower ty)
        match alookup ANNOTATIONS_TABLE type_name with
        | none =>
            .error (.parseError
              ("Invalid data type found for: " ++ column ++ " (\"" ++ type_name ++ "\")"))
        | some ht => .ok (some (column, ht))
    | [_] => .error (.valueError "not enough values to unpack (expected 2, got 1)")
    | _ => .error (.valueError "too many values to unpack (expected 2)")

/-- The loop of _parse_header over the header lines, accumulating the
annotations dict. -/
def parseHeaderAux (acc : List (String × HighType)) :
    List String → Except PErr (List (String × HighType))
  | [] => .ok acc
  | line :: rest => do
      match ← headerLineStep line with
      | none => parseHeaderAux acc rest
      | some (c, ht) => parseHeaderAux (aupsert acc c ht) rest

/-- The function _parse_header: the header block split at newlines,
processed line by line. -/
def _parse_header (header : String) : Except PErr (List (String × HighType)) :=
  parseHeaderAux [] (pySplit header "\n")

/-- First loop of _ensure_types_coverage: every grid field must be an
annotated column. -/
def coverageFieldsLoop (ann : List (String × HighType)) : List String → Except PErr Unit
  | [] => .ok ()
  | f :: fs =>
      if (alookup ann f).isSome then coverageFieldsLoop ann fs
      else .error (.annotationCoverageError ("Not annotated field: \"" ++ f ++ "\""))

/-- Second loop of _ensure_types_coverage: every annotated column must be
a grid field. -/
def coverageAnnLoop (fields : List String) : List String → Except PErr Unit
  | [] => .ok ()
  | c :: cs =>
      if fields.contains c then coverageAnnLoop fields cs
      else .error (.annotationCoverageError ("Annotated invalid field: \"" ++ c ++ "\""))

/-- The function _ensure_types_coverage.  Iterating fields when reader.fieldnames is
None (empty grid) is a Python TypeError, raised by the first for loop. -/
def _ensure_types_coverage (fields : Option (List String))
    (ann : List (String × HighType)) : Except PErr Unit :=
  match fields with
  | none => .error (.typeError "argument of type NoneType is not iterable")
  | some fs => do
      coverageFieldsLoop ann fs
      coverageAnnLoop fs (akeys ann)

/-- The tail of _parse once the document has been split into the text
before and after the separator: parse the stripped header, read the field
names and rows from the stripped grid, check coverage, and build the
aggregate (raw_header keeps the unstripped header text). -/
def parseSplitDoc (header raw_data0 : String) (fp : Option String) :
    Except PErr SCSVObject := do
  let ann ← _parse_header (pyStrip header)
  let raw_data := pyStrip raw_data0
  let fields := dictReaderFieldnames raw_data
  _ensure_types_coverage fields ann
  let rows :=
    match fields with
    | none => []
    | some fns => dictReaderRows fns raw_data
  .ok { annotations := ann, fields := fields, enc_rows := rows,
        file_path := fp, raw_header := some header }

/-- The function _parse.  The membership test raising the ParseError is equivalent to
the full split at the separator having a single part; with exactly one
occurrence the split has two parts, unpacked into header and grid; with
more occurrences the unpacking raises a ValueError. -/
def _parse (raw_content : String) (fp : Option String) : Except PErr SCSVObject :=
  match pySplit raw_content "@@" with
  | [_] => .error (.parseError "Header separator not found \"@@\"")
  | [header, raw_data] => parseSplitDoc header raw_data fp
  | _ => .error (.valueError "too many values to unpack (expected 2)")

/-- The result of a mutating method: the updated in-memory object and the
persistence effect of _save — the path and the full replacement content
written, or none when the object has no backing file. -/
structure MutResult where
  state : SCSVObject
  written : Option (String × String)
  deriving DecidableEq, Repr

/-- SCSVObject._validate_index.  Indices are modelled as integers, so the
isinstance guard for non-integral indices is discharged statically; the
range test rejects exactly the indices outside [0, row count). -/
def _validate_index (s : SCSVObject) (index : Int) : Except PErr Unit :=
  if index < 0 ∨ (s.enc_rows.length : Int) ≤ index then
    .error (.indexError ("Invalid row index: " ++ toString index ++
      ". Total rows in object = " ++ toString s.enc_rows.length))
  else .ok ()

/-- The loop of SCSVObject._encode_row, accumulating the casted dict: an
input column outside the annotations raises UpdateError before any
mutation; otherwise the value is encoded by the column variant. -/
def encodeRowAux (ann : List (String × HighType)) (acc : T_Row) :
    List (String × PyVal) → Except PErr T_Row
  | [] => .ok acc
  | (col, val) :: rest =>
      match alookup ann col with
      | none => .error (.updateError ("Invalid column: " ++ col))
      | some ht => do
          let ev ← ht.encodeV val
          encodeRowAux ann (aupsert acc col ev) rest

/-- SCSVObject._encode_row. -/
def _encode_row (s : SCSVObject) (data : T_Row) : Except PErr T_Row :=
  encodeRowAux s.annotations [] data

/-- The loop of SCSVObject._decode_row (same shape with decode). -/
def decodeRowAux (ann : List (String × HighType)) (acc : T_Row) :
    List (String × PyVal) → Except PErr T_Row
  | [] => .ok acc
  | (col, val) :: rest =>
      match alookup ann col with
      | none => .error (.updateError ("Invalid column: " ++ col))
      | some ht => do
          let dv ← ht.decodeV val
          decodeRowAux ann (aupsert acc col dv) rest

/-- SCSVObject._decode_row. -/
def _decode_row (s : SCSVObject) (data : T_Row) : Except PErr T_Row :=
  decodeRowAux s.annotations [] data

/-- The document text written by SCSVObject._save: the verbatim header,
the separator with a newline, the comma-joined field names, then each row
comma-joined from str() of the values of the row dict in the dict's own
order (row.values()), with a trailing newline. -/
def saveContent (raw_header : String) (fields : List String) (rows : List T_Row) : String :=
  raw_header ++ "@@\n" ++ pyJoin "," fields ++ "\n" ++
    pyJoin "\n" (rows.map (fun r => pyJoin "," (r.map (fun kv => pyStr kv.2)))) ++ "\n"

/-- SCSVObject._save: a no-op without a backing path; otherwise the full
replacement content, written under the cooperative file lock (the lock
itself is an external collaborator with no observable effect on the
document state, so it is not modelled).  A None raw_header or None fields
would make the string concatenations raise TypeError; the parser never
builds a file-bound object in that state. -/
def _save (s : SCSVObject) : Except PErr (Option (String × String)) :=
  match s.file_path with
  | none => .ok none
  | some fp =>
      match s.raw_header, s.fields with
      | some h, some fs => .ok (some (fp, saveContent h fs s.enc_rows))
      | none, _ => .error (.typeError "unsupported operand type for +: NoneType and str")
      | _, none => .error (.typeError "can only join an iterable")

/-- SCSVObject.read: the IndexError of _validate_index (or of the list
indexing) is caught and turned into None; any other exception (such as
the UpdateError of _decode_row) propagates. -/
def read (s : SCSVObject) (index : Int) : Except PErr (Option T_Row) :=
  match _validate_index s index with
  | .error (.indexError _) => .ok none
  | .error e => .error e
  | .ok () =>
      match s.enc_rows.get? index.toNat with
      | none => .ok none
      | some r => (_decode_row s r).map some

/-- In-place update of one list element (Python item assignment on the
element returned by indexing). -/
def listModify {α : Type} (f : α → α) : Nat → List α → List α
  | _, [] => []
  | 0, x :: xs => f x :: xs
  | n + 1, x :: xs => x :: listModify f n xs

/-- SCSVObject.update_row: validate the index, encode the whole input
row, replace the stored row, persist. -/
def update_row (s : SCSVObject) (index : Int) (row_data : T_Row) :
    Except PErr MutResult := do
  _validate_index s index
  let encoded ← _encode_row s row_data
  let s2 := { s with enc_rows := s.enc_rows.set index.toNat encoded }
  let w ← _save s2
  .ok ⟨s2, w⟩

/-- SCSVObject.update_field: validate the index, check the column against
the annotations (quoted message, unlike _encode_row), encode the single
value, assign it into the stored row dict, persist. -/
def update_field (s : SCSVObject) (index : Int) (col : String) (value : PyVal) :
    Except PErr MutResult := do
  _validate_index s index
  match alookup s.annotations col with
  | none => .error (.updateError ("Invalid column: \"" ++ col ++ "\""))
  | some ht => do
      let ev ← ht.encodeV value
      let s2 := { s with enc_rows := listModify (fun r => aupsert r col ev) index.toNat s.enc_rows }
      let w ← _save s2
      .ok ⟨s2, w⟩

/-- SCSVObject.remove_row: validate the index, pop the row, persist. -/
def remove_row (s : SCSVObject) (index : Int) : Except PErr MutResult := do
  _validate_index s index
  let s2 := { s with enc_rows := s.enc_rows.eraseIdx index.toNat }
  let w ← _save s2
  .ok ⟨s2, w⟩

/-- SCSVObject.insert_row: encode the whole input row, append it, persist. -/
def insert_row (s : SCSVObject) (row_data : T_Row) : Except PErr MutResult := do
  let encoded ← _encode_row s row_data
  let s2 := { s with enc_rows := s.enc_rows ++ [encoded] }
  let w ← _save s2
  .ok ⟨s2, w⟩

/-- One resume of the SCSVObject.read_all generator.  The for loop holds
a list iterator with a position into the live enc_rows list: each resume
reads the element at the current position of the current list state,
decodes it and yields it (ok none when the position is past the end, i.e.
the traversal stops).  genNext s pos is the value produced when the
generator whose iterator position is pos is resumed while the store state
is s. -/
def genNext (s : SCSVObject) (pos : Nat) : Except PErr (Option T_Row) :=
  match s.enc_rows.get? pos with
  | none => .ok none
  | some r => (_decode_row s r).map some

/-- Modelled from the spec (for comparison in claim C8): the traversal
the spec describes, computed wholly from the store state at call start
— a point-in-time snapshot of the row sequence. -/
def read_all_snapshot (s : SCSVObject) : Except PErr (List T_Row) :=
  s.enc_rows.mapM (_decode_row s)

/-- Modelled from the spec (for comparison in claim C7): the claimed
serialization, with each row's values written in field-list order (the
i-th written value is the stored value of the i-th field). -/
def specSaveContent (raw_header : String) (fields : List String) (rows : List T_Row) : String :=
  raw_header ++ "@@\n" ++ pyJoin "," fields ++ "\n" ++
    pyJoin "\n" (rows.map (fun r =>
      pyJoin "," (fields.map (fun f => pyStr ((alookup r f).getD .vNone))))) ++ "\n"

/-! ## Helper lemmas -/

theorem except_bind_err {ε α β : Type} (e : ε) (f : α → Except ε β) :
    (Except.error e >>= f) = .error e := rfl

theorem except_bind_ok {ε α β : Type} (a : α) (f : α → Except ε β) :
    (Except.ok a >>= f) = f a := rfl

/-- Lookup after a dict assignment. -/
theorem alookup_aupsert {α : Type} (m : List (String × α)) (k : String) (v : α) (c : String) :
    alookup (aupsert m k v) c = if k = c then some v else alookup m c := by
  induction m with
  | nil => simp [aupsert, alookup]
  | cons kv rest ih =>
      obtain ⟨k2, v2⟩ := kv
      by_cases h2 : k2 = k
      · subst h2
        simp [aupsert, alookup]
        by_cases hc : k2 = c <;> simp [hc]
      · simp [aupsert, h2, alookup, ih]
        by_cases hc : k2 = c
        · subst hc
          simp [show ¬ (k = k2) from fun h => h2 h.symm]
        · simp [hc]

theorem get?_set_self {α : Type} : ∀ (l : List α) (i : Nat) (x : α), i < l.length →
    (l.set i x).get? i = some x := by
  intro l
  induction l with
  | nil => intro i x h; simp at h
  | cons y ys ih =>
      intro i x h
      cases i with
      | zero => rfl
      | succ j => simpa using ih j x (by simpa using h)

theorem get?_append_length {α : Type} : ∀ (l : List α) (x : α),
    (l ++ [x]).get? l.length = some x := by
  intro l x
  induction l with
  | nil => rfl
  | cons y ys ih => exact ih

/-- The encode loop processes the input left to right: a prefix that
encodes cleanly is consumed first, then the rest. -/
theorem encodeRowAux_append (ann : List (String × HighType)) (pre rest : List (String × PyVal)) :
    ∀ acc, encodeRowAux ann acc (pre ++ rest) =
      match encodeRowAux ann acc pre with
      | .ok acc2 => encodeRowAux ann acc2 rest
      | .error e => .error e := by
  induction pre with
  | nil => intro acc; simp [encodeRowAux]
  | cons kv pre ih =>
      intro acc
      obtain ⟨col, val⟩ := kv
      rw [List.cons_append, encodeRowAux, encodeRowAux]
      cases halook : alookup ann col with
      | none => rfl
      | some ht =>
          cases henc : ht.encodeV val with
          | error e => simp [henc, except_bind_err]
          | ok ev => simp [henc, except_bind_ok, ih]

/-- The row produced by a successful encode holds exactly the keys of the
accumulator and of the input data. -/
theorem encodeRowAux_keys (ann : List (String × HighType)) :
    ∀ (d : List (String × PyVal)) (acc enc : T_Row), encodeRowAux ann acc d = .ok enc →
      ∀ c, (alookup enc c).isSome ↔ ((alookup acc c).isSome ∨ (akeys d).contains c) := by
  intro d
  induction d with
  | nil =>
      intro acc enc h c
      rw [encodeRowAux] at h
      injection h with h
      subst h
      simp [akeys]
  | cons kv rest ih =>
      intro acc enc h c
      obtain ⟨col, val⟩ := kv
      cases halook : alookup ann col with
      | none =>
          rw [encodeRowAux] at h
          simp only [halook] at h
          exact (Except.noConfusion h)
      | some ht =>
          cases henc : ht.encodeV val with
          | error e =>
              rw [encodeRowAux] at h
              simp only [halook, henc, except_bind_err] at h
              exact (Except.noConfusion h)
          | ok ev =>
              rw [encodeRowAux] at h
              simp only [halook, henc, except_bind_ok] at h
              have hiff := ih (aupsert acc col ev) enc h c
              rw [hiff, alookup_aupsert]
              by_cases hc : col = c
              · subst hc; simp [akeys]
              · simp [hc, akeys, show (c == col) = false from
                  by simp [beq_iff_eq]; exact fun h => hc h.symm]

/-- The guard _validate_index rejects exactly the indices outside the row range. -/
theorem validate_index_err (s : SCSVObject) (i : Int)
    (h : i < 0 ∨ (s.enc_rows.length : Int) ≤ i) :
    _validate_index s i = .error (.indexError ("Invalid row index: " ++ toString i ++
      ". Total rows in object = " ++ toString s.enc_rows.length)) := by
  simp [_validate_index, h]

/-- The guard _validate_index accepts exactly the indices inside the row range. -/
theorem validate_index_ok (s : SCSVObject) (i : Int)
    (h : 0 ≤ i ∧ i < (s.enc_rows.length : Int)) :
    _validate_index s i = .ok () := by
  rw [_validate_index, if_neg]
  push_neg
  omega

/-! ## Concrete stores used by the witnesses and counterexamples -/

def wStoreC5 : SCSVObject :=
  { annotations := [("a", HighType.string)], fields := some ["a"],
    enc_rows := [[("a", PyVal.vStr "x")]], file_path := none,
    raw_header := some "a: str\n" }

def wStoreC6 : SCSVObject :=
  { annotations := [("a", HighType.integer)], fields := some ["a"],
    enc_rows := [[("a", PyVal.vStr "1")]], file_path := none,
    raw_header := some "a: int\n" }

def wStoreC10 : SCSVObject :=
  { annotations := [("a", HighType.integer), ("b", HighType.string)],
    fields := some ["a", "b"],
    enc_rows := [[("a", PyVal.vStr "1"), ("b", PyVal.vStr "x")]],
    file_path := none,
    raw_header := some "a: int\nb: str\n" }

def sC7 : SCSVObject :=
  { annotations := [("a", HighType.integer), ("b", HighType.string)],
    fields := some ["a", "b"],
    enc_rows := [[("a", PyVal.vStr "1"), ("b", PyVal.vStr "x")]],
    file_path := some "f.scsv",
    raw_header := some "a: int\nb: str\n" }

def sC7b : SCSVObject := { sC7 with enc_rows := [[("b", PyVal.vStr "z"), ("a", PyVal.vInt 7)]] }

def sC8 : SCSVObject :=
  { annotations := [("a", HighType.string)], fields := some ["a"],
    enc_rows := [[("a", PyVal.vStr "x")]], file_path := none,
    raw_header := some "a: str\n" }

def sC8b : SCSVObject := { sC8 with enc_rows := [[("a", PyVal.vStr "x")], [("a", PyVal.vStr "y")]] }

/-! ## Claim theorems -/



/-- C1: the claim says decode(encode(x)) == x for every value accepted by
each variant's encode, in particular for arrays of booleans.  The code
violates it: Array.encode accepts [False] and produces the text
B::False followed by the record separator, but Array.decode rebuilds the
element with bool("False"), which is True, so the round trip returns
[True], not [False]. -/
theorem C1_array_bool_roundtrip_bug :
    Array.encode (.vList [.vBool false]) = .ok (.vStr "B::False\x00") ∧
    Array.decode (.vStr "B::False\x00") = .ok (.vList [.vBool true]) ∧
    (PyVal.vList [.vBool true]) ≠ .vList [.vBool false] := by
  refine ⟨rfl, rfl, by simp⟩

/-- C9: the claim says every variant is reachable in the alias table under
full-word, short-word and single-letter case-insensitive aliases, and in
particular that "integer" resolves to the Integer variant.  The code
violates it: the table spells the full-word alias "interger", so
"integer" (any case) is rejected by the header parser, while "INTERGER"
resolves; moreover no alias at all maps to the DateTime variant. -/
theorem C9_integer_alias_bug :
    alookup ANNOTATIONS_TABLE "integer" = none ∧
    alookup ANNOTATIONS_TABLE "interger" = some HighType.integer ∧
    _parse_header "n: integer" =
      .error (.parseError "Invalid data type found for: n (\"integer\")") ∧
    _parse_header "n: INTERGER" = .ok [("n", HighType.integer)] ∧
    (ANNOTATIONS_TABLE.map Prod.snd).contains HighType.dateTime = false := by
  exact ⟨rfl, rfl, rfl, rfl, rfl⟩

/-- C5: for every store and every index outside the row range, read
returns the absent result ok none rather than raising, while update_row
(for every input row, even one that could not encode), update_field and
remove_row raise the IndexError of _validate_index before any encoding or
persistence (an error result carries no state change and no write). -/
theorem C5_read_silent_mutations_raise (s : SCSVObject) (i : Int)
    (h : i < 0 ∨ (s.enc_rows.length : Int) ≤ i) :
    read s i = .ok none ∧
    (∀ d, update_row s i d = .error (.indexError ("Invalid row index: " ++ toString i ++
      ". Total rows in object = " ++ toString s.enc_rows.length))) ∧
    (∀ c v, update_field s i c v = .error (.indexError ("Invalid row index: " ++ toString i ++
      ". Total rows in object = " ++ toString s.enc_rows.length))) ∧
    remove_row s i = .error (.indexError ("Invalid row index: " ++ toString i ++
      ". Total rows in object = " ++ toString s.enc_rows.length)) := by
  refine ⟨?_, ?_, ?_, ?_⟩
  · rw [read, validate_index_err s i h]
  · intro d; rw [update_row, validate_index_err s i h]; rfl
  · intro c v; rw [update_field, validate_index_err s i h]; rfl
  · rw [remove_row, validate_index_err s i h]; rfl

/-- Witness for C5 at a concrete one-row store with the indices 5 and -1. -/
theorem C5_witness :
    read wStoreC5 5 = .ok none ∧
    update_row wStoreC5 5 [] =
      .error (.indexError "Invalid row index: 5. Total rows in object = 1") ∧
    update_field wStoreC5 5 "a" (.vStr "y") =
      .error (.indexError "Invalid row index: 5. Total rows in object = 1") ∧
    remove_row wStoreC5 (-1) =
      .error (.indexError "Invalid row index: -1. Total rows in object = 1") := by
  refine ⟨?_, ?_, ?_, ?_⟩
  · exact (C5_read_silent_mutations_raise wStoreC5 5 (Or.inr (by decide))).1
  · exact (C5_read_silent_mutations_raise wStoreC5 5 (Or.inr (by decide))).2.1 []
  · exact (C5_read_silent_mutations_raise wStoreC5 5 (Or.inr (by decide))).2.2.1 "a" (.vStr "y")
  · exact (C5_read_silent_mutations_raise wStoreC5 (-1) (Or.inl (by decide))).2.2.2

/-- C2 (amended): when the separator "@@" is absent (the full split has a
single part), parsing fails with the ParseError naming the missing
separator; when it occurs exactly once (the split has two parts), the
document is split there into header and grid; when it occurs two or more
times, parsing raises the tuple-unpacking ValueError instead of splitting
at the first occurrence. -/
theorem C2_separator_split (raw : String) :
    ((pySplit raw "@@").length = 1 →
        _parse raw none = .error (.parseError "Header separator not found \"@@\"")) ∧
    (∀ hd g, pySplit raw "@@" = [hd, g] → _parse raw none = parseSplitDoc hd g none) ∧
    (3 ≤ (pySplit raw "@@").length →
        _parse raw none = .error (.valueError "too many values to unpack (expected 2)")) := by
  refine ⟨?_, ?_, ?_⟩
  · intro h
    obtain ⟨x, hx⟩ := List.length_eq_one.mp h
    simp [_parse, hx]
  · intro hd g hx
    simp [_parse, hx]
  · intro h
    rcases hl : pySplit raw "@@" with _ | ⟨a, _ | ⟨b, _ | ⟨c, rest⟩⟩⟩
    · rw [hl] at h; simp at h
    · rw [hl] at h; simp at h
    · rw [hl] at h; simp at h
    · simp [_parse, hl]

/-- Counterexample to C2 as stated: this document contains "@@" twice, so
the claim says it parses by splitting at the first occurrence, but the
code raises a ValueError from unpacking the three-part split. -/
theorem C2_counterexample :
    _parse "x: i@@x\n1@@2" none =
      .error (.valueError "too many values to unpack (expected 2)") := rfl

/-- Witness for C2 at three concrete documents, one per branch. -/
theorem C2_witness :
    _parse "ab" none = .error (.parseError "Header separator not found \"@@\"") ∧
    _parse "h@@g" none = parseSplitDoc "h" "g" none ∧
    _parse "a@@b@@c" none = .error (.valueError "too many values to unpack (expected 2)") := by
  refine ⟨?_, ?_, ?_⟩
  · exact (C2_separator_split "ab").1 rfl
  · exact (C2_separator_split "h@@g").2.1 "h" "g" rfl
  · exact (C2_separator_split "a@@b@@c").2.2 (by decide)

/-- C3 (amended): an empty header line is skipped; a non-empty line with
exactly one colon yields the stripped column and the lowercased, stripped
alias, failing with the ParseError naming both when the alias is not in
the table; a non-empty line with no colon, or with more than one, fails
with a tuple-unpacking ValueError, not a ParseError.  The last conjunct
ties the per-line step to _parse_header on a one-line header. -/
theorem C3_header_line (line : String) :
    (line = "" → headerLineStep line = .ok none) ∧
    (line ≠ "" → (pySplit line ":").length = 1 →
        headerLineStep line =
          .error (.valueError "not enough values to unpack (expected 2, got 1)")) ∧
    (line ≠ "" → ∀ c t, pySplit line ":" = [c, t] →
        headerLineStep line =
          (match alookup ANNOTATIONS_TABLE (pyStrip (pyLower t)) with
           | none => .error (.parseError ("Invalid data type found for: " ++ pyStrip c ++
               " (\"" ++ pyStrip (pyLower t) ++ "\")"))
           | some ht => .ok (some (pyStrip c, ht)))) ∧
    (line ≠ "" → 3 ≤ (pySplit line ":").length →
        headerLineStep line = .error (.valueError "too many values to unpack (expected 2)")) ∧
    (∀ hdr, pySplit hdr "\n" = [line] →
        _parse_header hdr =
          (headerLineStep line).map (fun o => match o with
            | none => []
            | some p => [p])) := by
  refine ⟨?_, ?_, ?_, ?_, ?_⟩
  · intro h; simp [headerLineStep, h]
  · intro hne h
    obtain ⟨x, hx⟩ := List.length_eq_one.mp h
    simp [headerLineStep, hne, hx]
  · intro hne c t hx
    simp [headerLineStep, hne, hx]
  · intro hne h
    rcases hl : pySplit line ":" with _ | ⟨a, _ | ⟨b, _ | ⟨c, rest⟩⟩⟩
    · rw [hl] at h; simp at h
    · rw [hl] at h; simp at h
    · rw [hl] at h; simp at h
    · simp [headerLineStep, hne, hl]
  · intro hdr hx
    rw [_parse_header, hx, parseHeaderAux]
    cases hs : headerLineStep line with
    | error e => simp [hs, except_bind_err, Except.map]
    | ok o =>
        cases o with
        | none => simp [hs, except_bind_ok, parseHeaderAux, Except.map]
        | some p => simp [hs, except_bind_ok, parseHeaderAux, Except.map, aupsert]

/-- Counterexample to C3 as stated: a header line missing the colon
separator raises a ValueError from tuple unpacking, not the claimed
ParseError naming the offending column. -/
theorem C3_counterexample :
    _parse_header "colA" =
      .error (.valueError "not enough values to unpack (expected 2, got 1)") := rfl

/-- Witness for C3 at concrete header lines, one per branch. -/
theorem C3_witness :
    headerLineStep "" = .ok none ∧
    headerLineStep "colA" =
      .error (.valueError "not enough values to unpack (expected 2, got 1)") ∧
    headerLineStep "a: b: c" = .error (.valueError "too many values to unpack (expected 2)") ∧
    _parse_header "n: str" = (headerLineStep "n: str").map (fun o => match o with
      | none => []
      | some p => [p]) := by
  refine ⟨?_, ?_, ?_, ?_⟩
  · exact (C3_header_line "").1 rfl
  · exact (C3_header_line "colA").2.1 (by simp) rfl
  · exact (C3_header_line "a: b: c").2.2.2.1 (by simp) (by decide)
  · exact (C3_header_line "n: str").2.2.2.2 "n: str" rfl

theorem coverageFieldsLoop_ok_iff (ann : List (String × HighType)) :
    ∀ fs : List String, (coverageFieldsLoop ann fs = .ok () ↔ ∀ f ∈ fs, (alookup ann f).isSome) := by
  intro fs
  induction fs with
  | nil => simp [coverageFieldsLoop]
  | cons f fs ih =>
      by_cases h : (alookup ann f).isSome
      · simp [coverageFieldsLoop, h, ih]
      · simp [coverageFieldsLoop, h]

theorem coverageAnnLoop_ok_iff (fields : List String) :
    ∀ cs : List String, (coverageAnnLoop fields cs = .ok () ↔ ∀ c ∈ cs, fields.contains c) := by

  intro cs
  induction cs with
  | nil => simp [coverageAnnLoop]
  | cons c cs ih =>
      by_cases h : c ∈ fields
      · simp [coverageAnnLoop, h, ih, List.elem_iff]
      · simp [coverageAnnLoop, h, List.elem_iff]

theorem coverageFieldsLoop_err (ann : List (String × HighType)) :
    ∀ (fs : List String) (e : PErr), coverageFieldsLoop ann fs = .error e →
      ∃ f, f ∈ fs ∧ alookup ann f = none ∧
        e = .annotationCoverageError ("Not annotated field: \"" ++ f ++ "\"") := by
  intro fs
  induction fs with
  | nil => intro e h; rw [coverageFieldsLoop] at h; exact (Except.noConfusion h)
  | cons f fs ih =>
      intro e h
      by_cases hf : (alookup ann f).isSome
      · rw [coverageFieldsLoop, if_pos hf] at h
        obtain ⟨g, hg1, hg2, hg3⟩ := ih e h
        exact ⟨g, List.mem_cons_of_mem f hg1, hg2, hg3⟩
      · rw [coverageFieldsLoop, if_neg hf] at h
        injection h with h
        exact ⟨f, List.mem_cons_self f fs, Option.not_isSome_iff_eq_none.mp hf, h.symm⟩

theorem coverageAnnLoop_err (fields : List String) :
    ∀ (cs : List String) (e : PErr), coverageAnnLoop fields cs = .error e →
      ∃ c, c ∈ cs ∧ fields.contains c = false ∧
        e = .annotationCoverageError ("Annotated invalid field: \"" ++ c ++ "\"") := by
  intro cs
  induction cs with
  | nil => intro e h; rw [coverageAnnLoop] at h; exact (Except.noConfusion h)
  | cons c cs ih =>
      intro e h
      by_cases hc : fields.contains c
      · rw [coverageAnnLoop, if_pos hc] at h
        obtain ⟨g, hg1, hg2, hg3⟩ := ih e h
        exact ⟨g, List.mem_cons_of_mem c hg1, hg2, hg3⟩
      · rw [coverageAnnLoop, if_neg hc] at h
        injection h with h
        exact ⟨c, List.mem_cons_self c cs, by simpa using hc, h.symm⟩

/-- C4 (amended): with an existing field list, the coverage check passes
exactly when every grid field is annotated and every annotated column is
a grid field; through _parse, coverage success returns the aggregate and
a coverage failure propagates; a None field list (empty grid) raises a
TypeError; and every coverage error names a specific offending field of
the failing direction. -/
theorem C4_coverage_check (fs : List String) (ann : List (String × HighType)) :
    (_ensure_types_coverage (some fs) ann = .ok () ↔
      (∀ f ∈ fs, (alookup ann f).isSome) ∧ (∀ c ∈ akeys ann, fs.contains c)) ∧
    (∀ raw hd g, pySplit raw "@@" = [hd, g] →
        _parse_header (pyStrip hd) = .ok ann →
        dictReaderFieldnames (pyStrip g) = some fs →
        ((_ensure_types_coverage (some fs) ann = .ok () →
            _parse raw none = .ok
              { annotations := ann, fields := some fs,
                enc_rows := dictReaderRows fs (pyStrip g),
                file_path := none, raw_header := some hd }) ∧
         (∀ e, _ensure_types_coverage (some fs) ann = .error e →
            _parse raw none = .error e))) ∧
    (_ensure_types_coverage none ann =
      .error (.typeError "argument of type NoneType is not iterable")) ∧
    (∀ e, _ensure_types_coverage (some fs) ann = .error e →
      ∃ f, (e = .annotationCoverageError ("Not annotated field: \"" ++ f ++ "\"") ∧
              f ∈ fs ∧ alookup ann f = none) ∨
           (e = .annotationCoverageError ("Annotated invalid field: \"" ++ f ++ "\"") ∧
              f ∈ akeys ann ∧ fs.contains f = false)) := by
  have hfl := coverageFieldsLoop_ok_iff ann fs
  have hal := coverageAnnLoop_ok_iff fs (akeys ann)
  refine ⟨?_, ?_, rfl, ?_⟩
  · rw [_ensure_types_coverage]
    cases h1 : coverageFieldsLoop ann fs with
    | error e =>
        constructor
        · intro hh
          rw [except_bind_err] at hh
          exact (Except.noConfusion hh)
        · rintro ⟨hA, hB⟩
          exact absurd (hfl.mpr hA) (by simp [h1])
    | ok u =>
        cases u
        rw [except_bind_ok, hal]
        constructor
        · intro hB; exact ⟨hfl.mp h1, hB⟩
        · rintro ⟨hA, hB⟩; exact hB
  · intro raw hd g hx hhd hflds
    constructor
    · intro hcov
      simp only [_parse, hx, parseSplitDoc, hhd, except_bind_ok, hflds, hcov]
    · intro e hcov
      simp only [_parse, hx, parseSplitDoc, hhd, except_bind_ok, hflds, hcov, except_bind_err]
  · intro e h
    rw [_ensure_types_coverage] at h
    cases h1 : coverageFieldsLoop ann fs with
    | error e1 =>
        rw [h1, except_bind_err] at h
        injection h with h
        subst h
        obtain ⟨f, hf1, hf2, hf3⟩ := coverageFieldsLoop_err ann fs e1 h1
        exact ⟨f, Or.inl ⟨hf3, hf1, hf2⟩⟩
    | ok u =>
        cases u
        rw [h1, except_bind_ok] at h
        obtain ⟨c, hc1, hc2, hc3⟩ := coverageAnnLoop_err fs (akeys ann) e h
        exact ⟨c, Or.inr ⟨hc3, hc1, hc2⟩⟩

/-- Counterexample to C4 as stated: in the document "@@" the header
parses to the empty annotations and the grid has no fields, so the two
sets coincide and the claim says parsing returns the aggregate; the code
raises a TypeError iterating the None field list. -/
theorem C4_counterexample :
    _parse "@@" none = .error (.typeError "argument of type NoneType is not iterable") := rfl

/-- Witness for C4: a concrete covered document parses to its aggregate,
and a concrete uncovered field list yields a coverage error naming the
un-annotated field. -/
theorem C4_witness :
    _parse "a: int@@a" none = .ok
      { annotations := [("a", HighType.integer)],
        fields := some ["a"], enc_rows := [], file_path := none,
        raw_header := some "a: int" } ∧
    (∃ f, ((.annotationCoverageError ("Not annotated field: \"b\"") : PErr) =
              .annotationCoverageError ("Not annotated field: \"" ++ f ++ "\"") ∧
              f ∈ ["a", "b"] ∧ alookup [("a", HighType.integer)] f = none) ∨
           ((.annotationCoverageError ("Not annotated field: \"b\"") : PErr) =
              .annotationCoverageError ("Annotated invalid field: \"" ++ f ++ "\"") ∧
              f ∈ akeys [("a", HighType.integer)] ∧ (["a", "b"] : List String).contains f = false)) := by
  constructor
  · exact ((C4_coverage_check ["a"] [("a", HighType.integer)]).2.1
      "a: int@@a" "a: int" "a" rfl rfl rfl).1 rfl
  · exact (C4_coverage_check ["a", "b"] [("a", HighType.integer)]).2.2.2
      (.annotationCoverageError "Not annotated field: \"b\"") rfl

/-- Counterexample to C6 as stated: the input row holds the unknown column
zz, so the claim says update_row fails with the unknown-column
UpdateError; but the earlier annotated column a fails to encode first
(int(None)), so the code raises a TypeError instead. -/
theorem C6_counterexample :
    alookup wStoreC6.annotations "zz" = none ∧
    update_row wStoreC6 0 [("a", PyVal.vNone), ("zz", PyVal.vInt 1)] =
      .error (.typeError "int() argument must be a string or a number") := ⟨rfl, rfl⟩

/-- C6 (amended): for a valid index, when the first problematic entry of
the input row is an unknown column (the prefix before it encodes
cleanly), update_row and insert_row fail with the unknown-column
UpdateError - and, the result being an error, nothing is mutated or
persisted; when the whole row encodes, update_row replaces the stored row
with the encoded row as a whole and only then attempts _save. -/
theorem C6_unknown_column_atomic (s : SCSVObject) (i : Int) (d : T_Row)
    (hidx : 0 ≤ i ∧ i < (s.enc_rows.length : Int)) :
    (∀ pre col v post acc, d = pre ++ (col, v) :: post →
        encodeRowAux s.annotations [] pre = .ok acc →
        alookup s.annotations col = none →
        update_row s i d = .error (.updateError ("Invalid column: " ++ col)) ∧
        insert_row s d = .error (.updateError ("Invalid column: " ++ col))) ∧
    (∀ enc, _encode_row s d = .ok enc →
        update_row s i d = (_save { s with enc_rows := s.enc_rows.set i.toNat enc }).map
          (fun w => ⟨{ s with enc_rows := s.enc_rows.set i.toNat enc }, w⟩)) := by
  constructor
  · intro pre col v post acc hd hpre hcol
    have henc : _encode_row s d = .error (.updateError ("Invalid column: " ++ col)) := by
      rw [_encode_row, hd, encodeRowAux_append]
      simp only [hpre]
      simp only [encodeRowAux, hcol]
    constructor
    · rw [update_row, validate_index_ok s i hidx, except_bind_ok, henc, except_bind_err]
    · rw [insert_row, henc, except_bind_err]
  · intro enc henc
    rw [update_row, validate_index_ok s i hidx, except_bind_ok, henc, except_bind_ok]
    cases hsave : _save { s with enc_rows := s.enc_rows.set i.toNat enc } with
    | error e => simp only [hsave, except_bind_err, Except.map]
    | ok w => simp only [hsave, except_bind_ok, Except.map]

/-- Witness for C6 at a concrete store: both error branches and the
whole-row replacement branch. -/
theorem C6_witness :
    update_row wStoreC6 0 [("zz", PyVal.vInt 1)] =
      .error (.updateError "Invalid column: zz") ∧
    insert_row wStoreC6 [("zz", PyVal.vInt 1)] =
      .error (.updateError "Invalid column: zz") ∧
    update_row wStoreC6 0 [("a", PyVal.vInt 5)] =
      (_save { wStoreC6 with enc_rows := [[("a", PyVal.vInt 5)]] }).map
        (fun w => ⟨{ wStoreC6 with enc_rows := [[("a", PyVal.vInt 5)]] }, w⟩) := by
  refine ⟨?_, ?_, ?_⟩
  · exact ((C6_unknown_column_atomic wStoreC6 0 [("zz", PyVal.vInt 1)] (by decide)).1
      [] "zz" (PyVal.vInt 1) [] [] rfl rfl rfl).1
  · exact ((C6_unknown_column_atomic wStoreC6 0 [("zz", PyVal.vInt 1)] (by decide)).1
      [] "zz" (PyVal.vInt 1) [] [] rfl rfl rfl).2
  · exact (C6_unknown_column_atomic wStoreC6 0 [("a", PyVal.vInt 5)] (by decide)).2
      [("a", PyVal.vInt 5)] rfl

/-- C10: when the input row encodes successfully, the encoded row holds a
column exactly when the input supplied it, and a successful update_row
stores that encoded row at the index (annotations unchanged): a partial
update replaces the whole stored row, dropping the omitted declared
columns (partial-replace-with-loss). -/
theorem C10_partial_row_replaces (s : SCSVObject) (i : Int) (d enc : T_Row)
    (hidx : 0 ≤ i ∧ i < (s.enc_rows.length : Int))
    (henc : _encode_row s d = .ok enc) :
    (∀ c, (alookup enc c).isSome ↔ (akeys d).contains c) ∧
    (∀ m, update_row s i d = .ok m →
        m.state.enc_rows.get? i.toNat = some enc ∧ m.state.annotations = s.annotations) := by
  constructor
  · intro c
    have hk := encodeRowAux_keys s.annotations d [] enc henc c
    simpa [alookup] using hk
  · intro m hm
    rw [update_row, validate_index_ok s i hidx, except_bind_ok, henc, except_bind_ok] at hm
    cases hsave : _save { s with enc_rows := s.enc_rows.set i.toNat enc } with
    | error e =>
        simp only [hsave, except_bind_err] at hm
        exact (Except.noConfusion hm)
    | ok w =>
        simp only [hsave, except_bind_ok, Except.ok.injEq] at hm
        subst hm
        exact ⟨get?_set_self _ _ _ (by omega), rfl⟩

/-- Witness for C10 at a concrete two-column store updated with only
column a: the omitted column b is absent from the stored row. -/
theorem C10_witness :
    ((alookup [("a", PyVal.vInt 5)] "b").isSome ↔
        (akeys [("a", PyVal.vInt 5)]).contains "b") ∧
    ∀ m, update_row wStoreC10 0 [("a", PyVal.vInt 5)] = .ok m →
      m.state.enc_rows.get? 0 = some [("a", PyVal.vInt 5)] ∧
      m.state.annotations = wStoreC10.annotations := by
  constructor
  · exact (C10_partial_row_replaces wStoreC10 0 [("a", PyVal.vInt 5)] [("a", PyVal.vInt 5)]
      (by decide) rfl).1 "b"
  · intro m hm
    exact (C10_partial_row_replaces wStoreC10 0 [("a", PyVal.vInt 5)] [("a", PyVal.vInt 5)]
      (by decide) rfl).2 m (by exact hm)

/-- For a duplicate-free row dict, reading the values back in key order
gives exactly the stored values in insertion order. -/
theorem mapKeys_lookup_eq_mapRow :
    ∀ (r : T_Row), (akeys r).Nodup →
      (akeys r).map (fun f => pyStr ((alookup r f).getD .vNone)) =
        r.map (fun kv => pyStr kv.2) := by
  intro r
  induction r with
  | nil => intro _; rfl
  | cons kv rest ih =>
      intro hnd
      obtain ⟨k, v⟩ := kv
      have hk : k ∉ rest.map Prod.fst :=
        (List.nodup_cons.mp (by simpa [akeys] using hnd)).1
      have hrest : (akeys rest).Nodup :=
        (List.nodup_cons.mp (by simpa [akeys] using hnd)).2
      simp only [akeys, List.map_cons]
      congr 1
      · simp [alookup]
      · have hcong : (rest.map Prod.fst).map
            (fun f => pyStr ((alookup ((k, v) :: rest) f).getD .vNone)) =
            (rest.map Prod.fst).map (fun f => pyStr ((alookup rest f).getD .vNone)) := by
          apply List.map_congr_left
          intro f hf
          have hne : ¬ (k = f) := fun h => hk (h ▸ hf)
          rw [alookup, if_neg hne]
        rw [hcong]
        exact ih hrest

/-- C7 (amended): _save writes the verbatim header, the separator, the
comma-joined field line, then one line per row joined from str() of the
row dict values in the dict's own insertion order; when every stored row's
key sequence equals the duplicate-free field list, this coincides with
the claimed field-list-order serialization specSaveContent. -/
theorem C7_save_row_order (s : SCSVObject) (fp hd : String) (fs : List String)
    (h1 : s.file_path = some fp) (h2 : s.raw_header = some hd) (h3 : s.fields = some fs)
    (hnd : fs.Nodup) (h4 : ∀ r ∈ s.enc_rows, akeys r = fs) :
    _save s = .ok (some (fp, saveContent hd fs s.enc_rows)) ∧
    saveContent hd fs s.enc_rows = specSaveContent hd fs s.enc_rows := by
  constructor
  · simp [_save, h1, h2, h3]
  · rw [saveContent, specSaveContent]
    have hrows : s.enc_rows.map (fun r =>
        pyJoin "," (fs.map (fun f => pyStr ((alookup r f).getD .vNone)))) =
        s.enc_rows.map (fun r => pyJoin "," (r.map (fun kv => pyStr kv.2))) := by
      apply List.map_congr_left
      intro r hr
      rw [← h4 r hr]
      rw [mapKeys_lookup_eq_mapRow r (by rw [h4 r hr]; exact hnd)]
    rw [hrows]

/-- Counterexample to C7 as stated: a store reached by parsing a document
and updating row 0 with its columns supplied in the order b, a is saved
with the row line "z,7" under the field line "a,b", while the claimed
field-order serialization gives "7,z". -/
theorem C7_counterexample :
    _parse "a: int\nb: str\n@@\na,b\n1,x\n" (some "f.scsv") = .ok sC7 ∧
    update_row sC7 0 [("b", PyVal.vStr "z"), ("a", PyVal.vInt 7)] =
      .ok ⟨sC7b, some ("f.scsv", "a: int\nb: str\n@@\na,b\nz,7\n")⟩ ∧
    specSaveContent "a: int\nb: str\n" ["a", "b"] sC7b.enc_rows =
      "a: int\nb: str\n@@\na,b\n7,z\n" ∧
    ("a: int\nb: str\n@@\na,b\nz,7\n" : String) ≠ "a: int\nb: str\n@@\na,b\n7,z\n" := by
  refine ⟨rfl, rfl, rfl, by decide⟩

/-- Witness for C7 at a concrete aligned store, where the written content
equals the field-order serialization. -/
theorem C7_witness :
    _save sC7 = .ok (some ("f.scsv", saveContent "a: int\nb: str\n" ["a", "b"] sC7.enc_rows)) ∧
    saveContent "a: int\nb: str\n" ["a", "b"] sC7.enc_rows =
      specSaveContent "a: int\nb: str\n" ["a", "b"] sC7.enc_rows := by
  exact C7_save_row_order sC7 "f.scsv" "a: int\nb: str\n" ["a", "b"] rfl rfl rfl
    (by decide) (by decide)

/-- C8 (amended): read_all iterates the live row list.  If an insert_row
succeeds while a traversal is at the position just past the original
rows, the next resume of the generator observes and yields the newly
appended row (under the claimed call-start snapshot it would have ended). -/
theorem C8_readall_live_traversal (s : SCSVObject) (r : T_Row) (m : MutResult)
    (h : insert_row s r = .ok m) :
    ∃ enc, _encode_row s r = .ok enc ∧
      m.state.enc_rows = s.enc_rows ++ [enc] ∧
      genNext m.state s.enc_rows.length = (_decode_row m.state enc).map some := by
  rw [insert_row] at h
  cases henc : _encode_row s r with
  | error e =>
      simp only [henc, except_bind_err] at h
      exact (Except.noConfusion h)
  | ok enc =>
      simp only [henc, except_bind_ok] at h
      cases hsave : _save { s with enc_rows := s.enc_rows ++ [enc] } with
      | error e =>
          simp only [hsave, except_bind_err] at h
          exact (Except.noConfusion h)
      | ok w =>
          simp only [hsave, except_bind_ok, Except.ok.injEq] at h
          subst h
          refine ⟨enc, rfl, rfl, ?_⟩
          simp only [genNext, get?_append_length]

/-- Counterexample to C8 as stated: on a one-row store, after the
traversal consumed row 0, an insert_row is observed - the generator step
at position 1 yields the inserted row instead of ending, unlike the
call-start snapshot, which has exactly one row. -/
theorem C8_counterexample :
    insert_row sC8 [("a", PyVal.vStr "y")] = .ok ⟨sC8b, none⟩ ∧
    genNext sC8b 1 = .ok (some [("a", PyVal.vStr "y")]) ∧
    genNext sC8b 1 ≠ .ok none ∧
    read_all_snapshot sC8 = .ok [[("a", PyVal.vStr "x")]] := by
  refine ⟨rfl, rfl, ?_, rfl⟩
  have h1 : genNext sC8b 1 = .ok (some [("a", PyVal.vStr "y")]) := rfl
  rw [h1]
  simp

/-- Witness for C8 at the concrete one-row store and its post-insert
state. -/
theorem C8_witness :
    ∃ enc, _encode_row sC8 [("a", PyVal.vStr "y")] = .ok enc ∧
      sC8b.enc_rows = sC8.enc_rows ++ [enc] ∧
      genNext sC8b sC8.enc_rows.length = (_decode_row sC8b enc).map some := by
  exact C8_readall_live_traversal sC8 [("a", PyVal.vStr "y")] ⟨sC8b, none⟩ rfl

end SCSV
